import Mathlib

/-!
Verification of the tidal-troi-ui backend against its specification.

The development shallowly embeds the two Python modules
`src/backend/tidal_client.py` (endpoint registry, adaptive selector,
resilient request executor, status cache) and
`src/backend/download_state.py` (download state store).

Conventions of the embedding:
 - Python dicts keyed by strings or ints are association lists
   (`List (κ × α)`); dict assignment is modelled as remove-then-append,
   which is extensionally equal to Python assignment for every property
   proved here (none depends on dict iteration order).
 - `time.time()` is an explicit `now : Nat` argument threaded to every
   operation that reads the clock.  Python subtracts floats and can see a
   negative age for a future timestamp; `Nat` subtraction truncates such an
   age to `0`.  Both sides of every age comparison used below (`< 300`,
   `> 3600`) agree under this truncation.
 - `_save_state` / file writes always succeed and are recorded as a `Bool`
   where a claim needs them; the file system itself is not modelled.
 - HTTP traffic is a function from endpoint to outcome (`HttpResult`),
   one request issued per loop iteration of `_make_request`.
-/

/-- An endpoint dict `{"name": ..., "url": ..., "priority": ...}`.  The
`priority` key may be absent in configured endpoints (the sort reads it with
`x.get('priority', 999)`), hence `Option Nat`. -/
structure Endpoint where
  name : String
  url : String
  priority : Option Nat
deriving DecidableEq

/-- A value of `success_history[operation]`, as written by `_record_success`:
`{'name': ..., 'url': ..., 'timestamp': time.time()}`. -/
structure SuccessRecord where
  name : String
  url : String
  timestamp : Nat
deriving DecidableEq

/-- Lookup in a Python dict modelled as an association list. -/
def kvLookup {κ α : Type} [DecidableEq κ] : List (κ × α) → κ → Option α
  | [], _ => none
  | (k, v) :: t, q => if k = q then some v else kvLookup t q

/-- `del d[k]` (identity when the key is absent). -/
def kvErase {κ α : Type} [DecidableEq κ] : List (κ × α) → κ → List (κ × α)
  | [], _ => []
  | (k, v) :: t, q => if k = q then kvErase t q else (k, v) :: kvErase t q

/-- `d[k] = v`.  Python keeps an existing key at its old position; the
properties proved here never read iteration order, so remove-then-append is
an equivalent model. -/
def kvInsert {κ α : Type} [DecidableEq κ] (l : List (κ × α)) (k : κ) (v : α) :
    List (κ × α) :=
  kvErase l k ++ [(k, v)]

/-! ## tidal_client.py : endpoint registry -/

/-- The hard-coded `default_endpoints` list of `_load_endpoints`. -/
def defaultEndpoints : List Endpoint :=
  [ ⟨"kraken", "https://kraken.squid.wtf", some 1⟩,
    ⟨"triton", "https://triton.squid.wtf", some 1⟩,
    ⟨"zeus", "https://zeus.squid.wtf", some 1⟩,
    ⟨"aether", "https://aether.squid.wtf", some 1⟩,
    ⟨"phoenix", "https://phoenix.squid.wtf", some 1⟩,
    ⟨"shiva", "https://shiva.squid.wtf", some 1⟩,
    ⟨"chaos", "https://chaos.squid.wtf", some 1⟩,
    ⟨"hund", "https://hund.qqdl.site", some 2⟩,
    ⟨"katze", "https://katze.qqdl.site", some 2⟩,
    ⟨"maus", "https://maus.qqdl.site", some 2⟩,
    ⟨"vogel", "https://vogel.qqdl.site", some 2⟩,
    ⟨"wolf", "https://wolf.qqdl.site", some 2⟩ ]

/-- What the `'endpoints'` key of a parsed configuration dict can hold:
a well-formed list of endpoint dicts, or any other JSON value — a number, a
string, a dict, a list of ill-shaped entries, ... .  `data.get` makes no
shape check, so `_load_endpoints` can return either kind; the `tag`
distinguishes the ill-shaped values from one another. -/
inductive ConfigEndpointsValue where
  | wellFormed (eps : List Endpoint)
  | illShaped (tag : Nat)
deriving DecidableEq

/-- The state of the `endpoints_file` as `_load_endpoints` can observe it:
absent; present but unreadable or not valid JSON (`open`/`json.load` raises,
caught by `except Exception: pass`); valid JSON that is not a dict
(`data.get` raises `AttributeError`, caught by the same handler); or a dict,
whose `'endpoints'` key may be absent or hold any JSON value. -/
inductive EndpointsConfig where
  | missing
  | unreadable
  | parsedNonDict
  | parsedDict (eps : Option ConfigEndpointsValue)
deriving DecidableEq

/-- The value `_load_endpoints` returns: a list of endpoint dicts, or — when
the configured `'endpoints'` key held an ill-shaped value — that value
verbatim (`data.get('endpoints', default_endpoints)` substitutes the default
only for a missing key, never for a present ill-shaped one). -/
inductive LoadResult where
  | endpoints (eps : List Endpoint)
  | garbage (tag : Nat)
deriving DecidableEq

/-- `_load_endpoints`: returns `data.get('endpoints', default_endpoints)` when
the file exists and parses to a dict — including an ill-shaped `'endpoints'`
value passed through untouched — and `default_endpoints` when the file is
absent, fails to read or parse, parses to a non-dict, or lacks the key (the
`except Exception` swallows all read/parse errors). -/
def loadEndpoints : EndpointsConfig → LoadResult
  | .missing => .endpoints defaultEndpoints
  | .unreadable => .endpoints defaultEndpoints
  | .parsedNonDict => .endpoints defaultEndpoints
  | .parsedDict none => .endpoints defaultEndpoints
  | .parsedDict (some (.wellFormed eps)) => .endpoints eps
  | .parsedDict (some (.illShaped t)) => .garbage t

/-! ## tidal_client.py : adaptive selector -/

/-- In-memory client state relevant to endpoint selection: `self.endpoints`
and `self.success_history` (the status cache is modelled separately, as in
the source it is an independent dict). -/
structure ClientState where
  endpoints : List Endpoint
  successHistory : List (String × SuccessRecord)
deriving DecidableEq

/-- The Python sort key `lambda x: (x.get('priority', 999), x['name'])`. -/
def sortKey (e : Endpoint) : Nat × String :=
  (e.priority.getD 999, e.name)

/-- `sortKey a ≤ sortKey b` in the lexicographic order Python uses to compare
key tuples. -/
def epLe (a b : Endpoint) : Prop :=
  (sortKey a).1 < (sortKey b).1 ∨
    ((sortKey a).1 = (sortKey b).1 ∧ (sortKey a).2 ≤ (sortKey b).2)

instance : DecidableRel epLe := fun a b => by
  unfold epLe; exact inferInstance

/-- `_sort_endpoints_by_priority`.  The source copies the endpoint list,
then runs

```
for ep in endpoints:
    if ep['name'] == last_success['name']:
        ep = ep.copy()
        ep['priority'] = 0
```

`ep = ep.copy()` rebinds the loop variable to a fresh dict and the
assignment mutates that copy, which is then discarded: the list still holds
the original element.  The branch below mirrors that iteration — the
matching element is mapped to itself — so the list handed to `sorted` is
`self.endpoints` unchanged.  The guard `if operation and operation in
self.success_history` is Python truthiness: `None` and `""` skip the loop. -/
def sortEndpointsByPriority (c : ClientState) (operation : Option String) :
    List Endpoint :=
  let endpoints :=
    match operation with
    | some op =>
        if op ≠ "" then
          match kvLookup c.successHistory op with
          | some lastSuccess =>
              c.endpoints.map fun ep =>
                if ep.name = lastSuccess.name then ep else ep
          | none => c.endpoints
        else c.endpoints
    | none => c.endpoints
  List.insertionSort epLe endpoints

/-- Modelled from the spec: the Adaptive Selector as §4.2 of the spec words
it — before sorting, the entry whose name matches the SuccessRecord for
`operation` has its effective priority forced to `0`.  Present only to
exhibit how `sortEndpointsByPriority` diverges from the spec. -/
def sortEndpointsByPrioritySpec (c : ClientState) (operation : Option String) :
    List Endpoint :=
  let endpoints :=
    match operation with
    | some op =>
        if op ≠ "" then
          match kvLookup c.successHistory op with
          | some lastSuccess =>
              c.endpoints.map fun ep =>
                if ep.name = lastSuccess.name then { ep with priority := some 0 }
                else ep
          | none => c.endpoints
        else c.endpoints
    | none => c.endpoints
  List.insertionSort epLe endpoints

/-- `_record_success(endpoint, operation)`: overwrite
`success_history[operation]` with name, url and the current time. -/
def recordSuccess (c : ClientState) (now : Nat) (endpoint : Endpoint)
    (operation : String) : ClientState :=
  { c with successHistory :=
      kvInsert c.successHistory operation ⟨endpoint.name, endpoint.url, now⟩ }

/-! ## tidal_client.py : resilient request executor -/

/-- What one `self.session.get(url, ...)` call yields inside `_make_request`:
an HTTP response with a status code and a parsed body (read only on 200), or
a `requests.exceptions.RequestException` (connection failure, timeout, ...). -/
inductive HttpResult (β : Type) where
  | response (status : Nat) (body : β)
  | transportError
deriving DecidableEq

/-- Observable outcome of the endpoint loop of `_make_request`: the returned
value, the endpoints requested in order, and the endpoint passed to
`_record_success` (if any). -/
structure RequestOutcome (β : Type) where
  result : Option β
  attempted : List Endpoint
  recorded : Option Endpoint
deriving DecidableEq

/-- One failed iteration: endpoint `e` was requested and the loop continued. -/
def skipTo {β : Type} (e : Endpoint) (o : RequestOutcome β) : RequestOutcome β :=
  ⟨o.result, e :: o.attempted, o.recorded⟩

/-- The `for endpoint in sorted_endpoints` loop of `_make_request`, branch by
branch: a raised `RequestException` is caught and the loop continues; 429
sleeps two seconds then continues; 500 and 404 continue; 200 records success
and returns `response.json()`; any other status matches no branch, so the
loop body simply ends and the next endpoint is tried.  A fully exhausted
loop falls through to `return None`. -/
def requestLoop {β : Type} (resp : Endpoint → HttpResult β) :
    List Endpoint → RequestOutcome β
  | [] => ⟨none, [], none⟩
  | e :: rest =>
    match resp e with
    | .transportError => skipTo e (requestLoop resp rest)
    | .response status body =>
        if status = 429 then skipTo e (requestLoop resp rest)
        else if status = 500 ∨ status = 404 then skipTo e (requestLoop resp rest)
        else if status = 200 then ⟨some body, [e], some e⟩
        else skipTo e (requestLoop resp rest)

/-- `_make_request(path, params, operation)`: order the endpoints through the
selector, then walk them with the request loop. -/
def makeRequest {β : Type} (c : ClientState) (resp : Endpoint → HttpResult β)
    (operation : Option String) : RequestOutcome β :=
  requestLoop resp (sortEndpointsByPriority c operation)

/-- Python `operation or path`: `None` and `""` fall back to `path`. -/
def opKey (operation : Option String) (path : String) : String :=
  match operation with
  | some op => if op = "" then path else op
  | none => path

/-- `self.success_history` after `_make_request` returns: when a 200 was hit,
`_record_success(endpoint, operation or path)` ran for that endpoint. -/
def makeRequestHistory {β : Type} (c : ClientState)
    (resp : Endpoint → HttpResult β) (path : String) (operation : Option String)
    (now : Nat) : List (String × SuccessRecord) :=
  match (makeRequest c resp operation).recorded with
  | some e => (recordSuccess c now e (opKey operation path)).successHistory
  | none => c.successHistory

/-! ## tidal_client.py : status cache -/

/-- A value of `self.download_status_cache[track_id]`:
`{'status': ..., 'timestamp': time.time()}`.  The status document is opaque
to the client (`σ`). -/
structure CacheEntry (σ : Type) where
  status : σ
  timestamp : Nat
deriving DecidableEq

/-- `get_download_status`: return the cached status while its age is below
300 seconds, `None` otherwise (expired entries are not deleted here). -/
def getDownloadStatus {σ : Type} (cache : List (Nat × CacheEntry σ))
    (now : Nat) (trackId : Nat) : Option σ :=
  match kvLookup cache trackId with
  | some cached => if now - cached.timestamp < 300 then some cached.status else none
  | none => none

/-- `set_download_status`: overwrite the entry, timestamped now. -/
def setDownloadStatus {σ : Type} (cache : List (Nat × CacheEntry σ))
    (now : Nat) (trackId : Nat) (status : σ) : List (Nat × CacheEntry σ) :=
  kvInsert cache trackId ⟨status, now⟩

/-! ## download_state.py : download state store -/

/-- Opaque metadata document attached to a store entry (`metadata or {}`). -/
abbrev Meta := List (String × String)

/-- A value of `state["active"][track_id_str]`. -/
structure ActiveEntry where
  progress : Nat
  timestamp : Nat
  metadata : Meta
deriving DecidableEq

/-- A value of `state["completed"][track_id_str]`.  A document loaded from
disk may lack the timestamp (`data.get("timestamp", 0)` in the sweep), hence
`Option Nat`; the store's own writes always set it. -/
structure CompletedEntry where
  filename : String
  timestamp : Option Nat
  metadata : Meta
deriving DecidableEq

/-- A value of `state["failed"][track_id_str]`. -/
structure FailedEntry where
  error : String
  timestamp : Option Nat
  metadata : Meta
deriving DecidableEq

/-- `self.state`: the three top-level mappings, keyed by `str(track_id)`. -/
structure StoreState where
  active : List (String × ActiveEntry)
  completed : List (String × CompletedEntry)
  failed : List (String × FailedEntry)
deriving DecidableEq

/-- The document `_load_state` substitutes when the file is missing or
unreadable. -/
def emptyStore : StoreState := ⟨[], [], []⟩

/-- `set_downloading(track_id, progress, metadata)`: create or overwrite the
active entry, timestamped now.  Nothing is removed from `completed` or
`failed`. -/
def setDownloading (s : StoreState) (now : Nat) (trackId : Nat)
    (progress : Nat) (metadata : Option Meta) : StoreState :=
  { s with active :=
      kvInsert s.active (toString trackId) ⟨progress, now, metadata.getD []⟩ }

/-- `update_progress(track_id, progress)`: no-op unless the item is active;
otherwise update progress and timestamp in place. -/
def updateProgress (s : StoreState) (now : Nat) (trackId : Nat)
    (progress : Nat) : StoreState :=
  match kvLookup s.active (toString trackId) with
  | some entry =>
      { s with active :=
          kvInsert s.active (toString trackId) ⟨progress, now, entry.metadata⟩ }
  | none => s

/-- `set_completed(track_id, filename, metadata)`: drop the active entry if
present, insert a completed entry timestamped now.  The `failed` mapping is
not touched. -/
def setCompleted (s : StoreState) (now : Nat) (trackId : Nat)
    (filename : String) (metadata : Option Meta) : StoreState :=
  let key := toString trackId
  let active :=
    if (kvLookup s.active key).isSome then kvErase s.active key else s.active
  { s with active := active,
           completed :=
             kvInsert s.completed key ⟨filename, some now, metadata.getD []⟩ }

/-- `set_failed(track_id, error, metadata)`: drop the active entry if
present, insert a failed entry timestamped now.  The `completed` mapping is
not touched. -/
def setFailed (s : StoreState) (now : Nat) (trackId : Nat)
    (error : String) (metadata : Option Meta) : StoreState :=
  let key := toString trackId
  let active :=
    if (kvLookup s.active key).isSome then kvErase s.active key else s.active
  { s with active := active,
           failed :=
             kvInsert s.failed key ⟨error, some now, metadata.getD []⟩ }

/-- `clear_download(track_id)`: remove the item from each of the three
mappings in which it occurs (`kvErase` is the identity on the others). -/
def clearDownload (s : StoreState) (trackId : Nat) : StoreState :=
  let key := toString trackId
  ⟨kvErase s.active key, kvErase s.completed key, kvErase s.failed key⟩

/-- The document returned by `get_download_state`: the matched entry tagged
with the state of the mapping it came from. -/
inductive DownloadState where
  | downloading (entry : ActiveEntry)
  | completed (entry : CompletedEntry)
  | failed (entry : FailedEntry)
deriving DecidableEq

/-- `get_download_state(track_id)`: check `active`, then `completed`, then
`failed`, returning the first match tagged with its state. -/
def getDownloadState (s : StoreState) (trackId : Nat) : Option DownloadState :=
  let key := toString trackId
  match kvLookup s.active key with
  | some e => some (.downloading e)
  | none =>
    match kvLookup s.completed key with
    | some e => some (.completed e)
    | none =>
      match kvLookup s.failed key with
      | some e => some (.failed e)
      | none => none

/-- Keys of a mapping whose entry's age exceeds `max_age = 3600`, the
`expired_keys` comprehension of `_cleanup_old_entries` (timestamp read with
`data.get("timestamp", 0)`). -/
def expiredKeys {α : Type} (stamp : α → Option Nat)
    (entries : List (String × α)) (now : Nat) : List String :=
  (entries.filter fun kv => now - (stamp kv.2).getD 0 > 3600).map Prod.fst

/-- `_cleanup_old_entries`: sweep `completed` then `failed`, deleting every
expired key; returns the swept state together with whether `_save_state` was
called.  The guard `if expired_keys:` sits after the `for category` loop, so
the name holds only the list computed for the final category, `"failed"` —
the save happens exactly when that last list is non-empty. -/
def cleanupOldEntries (s : StoreState) (now : Nat) : StoreState × Bool :=
  let expiredCompleted := expiredKeys CompletedEntry.timestamp s.completed now
  let completed := expiredCompleted.foldl kvErase s.completed
  let expiredFailed := expiredKeys FailedEntry.timestamp s.failed now
  let failed := expiredFailed.foldl kvErase s.failed
  (⟨s.active, completed, failed⟩, !expiredFailed.isEmpty)

/-- What `_load_state` can observe of the state file. -/
inductive StateFileContent where
  | missing
  | corrupt
  | loaded (s : StoreState)

/-- `_load_state`: the persisted document, or the empty document on a
missing or unreadable/corrupt file. -/
def loadState : StateFileContent → StoreState
  | .missing => emptyStore
  | .corrupt => emptyStore
  | .loaded s => s

/-- `DownloadStateManager.__init__`: load the persisted document, then run
`_cleanup_old_entries`; the `Bool` records whether the sweep persisted. -/
def initStore (file : StateFileContent) (now : Nat) : StoreState × Bool :=
  cleanupOldEntries (loadState file) now

/-! ## Derived predicates and concrete instances used by the theorems -/

/-- Whether a request outcome takes the `status_code == 200` branch of
`_make_request`. -/
def is200 {β : Type} : HttpResult β → Bool
  | .response s _ => s == 200
  | .transportError => false

/-- The failure modes enumerated by the spec for a single endpoint attempt:
HTTP 429, 500, 404, or a transport-level error. -/
def isListedFailure {β : Type} : HttpResult β → Prop
  | .response s _ => s = 429 ∨ s = 500 ∨ s = 404
  | .transportError => True

instance {β : Type} : DecidablePred (isListedFailure (β := β)) := fun r => by
  cases r <;> (unfold isListedFailure; exact inferInstance)

/-- Concrete endpoint: static priority 2, name sorting after `epLoPri`. -/
def epHiPri : Endpoint := ⟨"alpha", "https://alpha.example", some 2⟩

/-- Concrete endpoint: static priority 1, so it sorts first statically. -/
def epLoPri : Endpoint := ⟨"beta", "https://beta.example", some 1⟩

/-- Client whose success history names `epHiPri` for `"search_tracks"`. -/
def clientWithHistory : ClientState :=
  ⟨[epHiPri, epLoPri], [("search_tracks", ⟨"alpha", "https://alpha.example", 100⟩)]⟩

/-- Client with the same two endpoints and no history yet. -/
def clientNoHistory : ClientState := ⟨[epHiPri, epLoPri], []⟩

/-- A store holding one completed entry recorded at time 0 and nothing else;
at time 5000 that entry is 5000s old, beyond the 3600s cap. -/
def storeOldCompleted : StoreState :=
  ⟨[], [("1", ⟨"f.flac", some 0, []⟩)], []⟩

/-- The same stale entry placed in `failed` instead. -/
def storeOldFailed : StoreState :=
  ⟨[], [], [("1", ⟨"boom", some 0, []⟩)]⟩

/-- The store produced by `set_completed(7, "a.flac")` at time 10 followed by
`set_downloading(7)` at time 20, from the empty store. -/
def storeOverlap : StoreState :=
  setDownloading (setCompleted emptyStore 10 7 "a.flac" none) 20 7 0 none

/-- Four endpoints with distinct static priorities 1..4, so the selector
order is `[exFail500, exFailConn, exOk, exUnreached]`. -/
def exFail500 : Endpoint := ⟨"a500", "https://a.example", some 1⟩

def exFailConn : Endpoint := ⟨"bconn", "https://b.example", some 2⟩

def exOk : Endpoint := ⟨"cok", "https://c.example", some 3⟩

def exUnreached : Endpoint := ⟨"dskip", "https://d.example", some 4⟩

/-- Client for the executor scenarios. -/
def execClient : ClientState :=
  ⟨[exFail500, exFailConn, exOk, exUnreached], []⟩

/-- Mocked traffic: 500, connection error, 200 with body 42, then another
200 that must never be reached. -/
def execResp : Endpoint → HttpResult Nat := fun e =>
  if e.name = "a500" then .response 500 0
  else if e.name = "bconn" then .transportError
  else if e.name = "cok" then .response 200 42
  else .response 200 99

/-- Mocked traffic where every endpoint fails: 429, 500, 404, timeout. -/
def execRespAllFail : Endpoint → HttpResult Nat := fun e =>
  if e.name = "a500" then .response 429 0
  else if e.name = "bconn" then .response 500 0
  else if e.name = "cok" then .response 404 0
  else .transportError

/-- Mocked traffic answering 403 everywhere (a status the executor's branch
list does not enumerate). -/
def execResp403 : Endpoint → HttpResult Nat := fun _ => .response 403 0

/-! ## Association-list lemmas -/

theorem kvLookup_append {κ α : Type} [DecidableEq κ] (l₁ l₂ : List (κ × α))
    (q : κ) :
    kvLookup (l₁ ++ l₂) q =
      match kvLookup l₁ q with
      | some v => some v
      | none => kvLookup l₂ q := by
  induction l₁ with
  | nil => rfl
  | cons hd t ih =>
    obtain ⟨k, v⟩ := hd
    by_cases h : k = q <;> simp [kvLookup, h, ih]

theorem kvLookup_kvErase_self {κ α : Type} [DecidableEq κ]
    (l : List (κ × α)) (q : κ) : kvLookup (kvErase l q) q = none := by
  induction l with
  | nil => rfl
  | cons hd t ih =>
    obtain ⟨k, v⟩ := hd
    by_cases h : k = q <;> simp [kvErase, kvLookup, h, ih]

theorem kvLookup_kvInsert_self {κ α : Type} [DecidableEq κ]
    (l : List (κ × α)) (k : κ) (v : α) :
    kvLookup (kvInsert l k v) k = some v := by
  rw [kvInsert, kvLookup_append, kvLookup_kvErase_self]
  simp [kvLookup]

/-! ## Request-loop lemmas -/

theorem requestLoop_skip {β : Type} (resp : Endpoint → HttpResult β)
    (e : Endpoint) (rest : List Endpoint) (h : is200 (resp e) = false) :
    requestLoop resp (e :: rest) = skipTo e (requestLoop resp rest) := by
  cases hr : resp e with
  | transportError => simp only [requestLoop, hr]
  | response s b =>
    rw [hr] at h
    simp only [is200, beq_eq_false_iff_ne, ne_eq] at h
    simp only [requestLoop, hr]
    simp [h]

theorem requestLoop_hit {β : Type} (resp : Endpoint → HttpResult β)
    (e : Endpoint) (rest : List Endpoint) (b : β)
    (h : resp e = .response 200 b) :
    requestLoop resp (e :: rest) = ⟨some b, [e], some e⟩ := by
  simp only [requestLoop, h]
  norm_num

theorem requestLoop_all_fail {β : Type} (resp : Endpoint → HttpResult β)
    (L : List Endpoint) (h : ∀ x ∈ L, is200 (resp x) = false) :
    requestLoop resp L = ⟨none, L, none⟩ := by
  induction L with
  | nil => rfl
  | cons e rest ih =>
    rw [requestLoop_skip resp e rest (h e (by simp)),
        ih fun x hx => h x (by simp [hx])]
    rfl

theorem requestLoop_first_hit {β : Type} (resp : Endpoint → HttpResult β)
    (L₁ : List Endpoint) (e : Endpoint) (L₂ : List Endpoint) (b : β)
    (h1 : ∀ x ∈ L₁, is200 (resp x) = false)
    (h2 : resp e = .response 200 b) :
    requestLoop resp (L₁ ++ e :: L₂) = ⟨some b, L₁ ++ [e], some e⟩ := by
  induction L₁ with
  | nil => simpa using requestLoop_hit resp e L₂ b h2
  | cons x t ih =>
    rw [List.cons_append, requestLoop_skip resp x _ (h1 x (by simp)),
        ih fun y hy => h1 y (by simp [hy])]
    rfl

theorem requestLoop_result_some {β : Type} (resp : Endpoint → HttpResult β)
    (L : List Endpoint) (b : β) (h : (requestLoop resp L).result = some b) :
    ∃ e ∈ L, resp e = .response 200 b := by
  induction L with
  | nil => simp [requestLoop] at h
  | cons e rest ih =>
    by_cases h200 : is200 (resp e) = true
    · cases hr : resp e with
      | transportError => rw [hr] at h200; simp [is200] at h200
      | response s body =>
        rw [hr] at h200
        simp only [is200, beq_iff_eq] at h200
        subst h200
        rw [requestLoop_hit resp e rest body hr] at h
        obtain rfl : body = b := by simpa using h
        exact ⟨e, by simp, hr⟩
    · rw [requestLoop_skip resp e rest (by simpa using h200)] at h
      obtain ⟨y, hy, hresp⟩ := ih h
      exact ⟨y, by simp [hy], hresp⟩

/-! ## Claim theorems -/

/-- C1: the claim says `_sort_endpoints_by_priority` forces the priority of
the endpoint named by the operation's SuccessRecord to 0, so that it appears
first.  The code does not: `ep = ep.copy(); ep['priority'] = 0` mutates a
discarded copy.  At a client whose history names `"alpha"` (static priority
2), the code still returns `"beta"` (priority 1) first, while the selector
as the spec words it would return the promoted `"alpha"` first. -/
theorem C1_sort_ignores_success_record :
    sortEndpointsByPriority clientWithHistory (some "search_tracks")
        = [epLoPri, epHiPri] ∧
    (sortEndpointsByPriority clientWithHistory (some "search_tracks")).head?
        ≠ some epHiPri ∧
    sortEndpointsByPrioritySpec clientWithHistory (some "search_tracks")
        = [{ epHiPri with priority := some 0 }, epLoPri] := by
  refine ⟨by decide, by decide, by decide⟩

/-- C4: `_record_success(X, op)` then `_record_success(Y, op)` leaves exactly
one record for `op`, holding Y — that half of the claim holds, and is proved
here for every client, times, endpoints and operation.  The other half fails:
recording `"alpha"` (priority 2) as the latest success for `"get_track"`
still leaves `"beta"` (priority 1) first in the next sort, because the
priority-0 promotion writes to a discarded copy; the selector as the spec
words it would put `"alpha"` first. -/
theorem C4_record_success_overwrites_without_promotion :
    (∀ (c : ClientState) (n₁ n₂ : Nat) (X Y : Endpoint) (op : String),
      kvLookup
        (recordSuccess (recordSuccess c n₁ X op) n₂ Y op).successHistory op
        = some ⟨Y.name, Y.url, n₂⟩) ∧
    (recordSuccess (recordSuccess clientNoHistory 50 epLoPri "get_track")
        60 epHiPri "get_track").successHistory
      = [("get_track", ⟨"alpha", "https://alpha.example", 60⟩)] ∧
    sortEndpointsByPriority
        (recordSuccess (recordSuccess clientNoHistory 50 epLoPri "get_track")
          60 epHiPri "get_track") (some "get_track")
      = [epLoPri, epHiPri] ∧
    sortEndpointsByPrioritySpec
        (recordSuccess (recordSuccess clientNoHistory 50 epLoPri "get_track")
          60 epHiPri "get_track") (some "get_track")
      = [{ epHiPri with priority := some 0 }, epLoPri] := by
  refine ⟨fun c n₁ n₂ X Y op => ?_, by decide, by decide, by decide⟩
  simp [recordSuccess, kvLookup_kvInsert_self]

/-- C2 counterexample: from the empty store, `set_completed(7, "a.flac")` at
time 10 followed by `set_downloading(7)` at time 20 leaves item 7 present in
both `active` and `completed` — two mappings at once, refuting the claimed
mutual-exclusion invariant. -/
theorem C2_counterexample_overlap :
    (kvLookup storeOverlap.active "7").isSome = true ∧
    (kvLookup storeOverlap.completed "7").isSome = true := by
  refine ⟨by decide, by decide⟩

/-- C2 amended: `set_completed` and `set_failed` always remove the item from
`active` (proved for every store and item), but `set_downloading` removes
nothing from `completed`/`failed`, so an item can sit in two mappings at
once (the overlap store below); `get_download_state` still reports a single
status for it, preferring `active`. -/
theorem C2_active_removed_but_overlap_reachable :
    (∀ (s : StoreState) (now i : Nat) (f : String) (md : Option Meta),
      kvLookup (setCompleted s now i f md).active (toString i) = none) ∧
    (∀ (s : StoreState) (now i : Nat) (er : String) (md : Option Meta),
      kvLookup (setFailed s now i er md).active (toString i) = none) ∧
    (kvLookup storeOverlap.active "7").isSome = true ∧
    (kvLookup storeOverlap.completed "7").isSome = true ∧
    getDownloadState storeOverlap 7 = some (.downloading ⟨0, 20, []⟩) := by
  refine ⟨fun s now i f md => ?_, fun s now i er md => ?_,
    by decide, by decide, by decide⟩
  · simp only [setCompleted]
    by_cases h : (kvLookup s.active (toString i)).isSome
    · simp [h, kvLookup_kvErase_self]
    · simp only [Bool.not_eq_true] at h
      have h2 : kvLookup s.active (toString i) = none := by
        cases hx : kvLookup s.active (toString i) <;> simp [hx] at h ⊢
      simp [h, h2]
  · simp only [setFailed]
    by_cases h : (kvLookup s.active (toString i)).isSome
    · simp [h, kvLookup_kvErase_self]
    · simp only [Bool.not_eq_true] at h
      have h2 : kvLookup s.active (toString i) = none := by
        cases hx : kvLookup s.active (toString i) <;> simp [hx] at h ⊢
      simp [h, h2]

/-- C3: the claim says the construction-time sweep persists whenever any
entry was removed.  The guard `if expired_keys:` runs after the
`for category` loop and sees only the `"failed"` list, so a store whose only
stale entry is in `completed` is swept without being persisted (first two
conjuncts, including through `__init__`); the same stale entry in `failed`
does persist (third); a 3000s-old entry survives the sweep (fourth). -/
theorem C3_sweep_skips_persist_for_completed_only :
    cleanupOldEntries storeOldCompleted 5000 = (⟨[], [], []⟩, false) ∧
    initStore (.loaded storeOldCompleted) 5000 = (⟨[], [], []⟩, false) ∧
    cleanupOldEntries storeOldFailed 5000 = (⟨[], [], []⟩, true) ∧
    cleanupOldEntries ⟨[], [("1", ⟨"f.flac", some 2000, []⟩)], []⟩ 5000
      = (⟨[], [("1", ⟨"f.flac", some 2000, []⟩)], []⟩, false) := by
  refine ⟨by decide, by decide, by decide, by decide⟩

/-- C9: for every starting store, item and filename, `set_downloading(i)`
followed by `set_completed(i, f)` leaves `i` absent from `active`, present
in `completed` with filename `f`, and `get_download_state(i)` reports the
completed entry tagged `completed`. -/
theorem C9_completed_after_downloading (s : StoreState) (n₁ n₂ i : Nat)
    (f : String) (md₁ md₂ : Option Meta) :
    kvLookup (setCompleted (setDownloading s n₁ i 0 md₁) n₂ i f md₂).active
        (toString i) = none ∧
    kvLookup (setCompleted (setDownloading s n₁ i 0 md₁) n₂ i f md₂).completed
        (toString i) = some ⟨f, some n₂, md₂.getD []⟩ ∧
    getDownloadState (setCompleted (setDownloading s n₁ i 0 md₁) n₂ i f md₂) i
      = some (.completed ⟨f, some n₂, md₂.getD []⟩) := by
  have hA : kvLookup (setDownloading s n₁ i 0 md₁).active (toString i)
      = some ⟨0, n₁, md₁.getD []⟩ := by
    simp [setDownloading, kvLookup_kvInsert_self]
  have hActive : kvLookup
      (setCompleted (setDownloading s n₁ i 0 md₁) n₂ i f md₂).active
      (toString i) = none := by
    simp [setCompleted, hA, kvLookup_kvErase_self]
  have hCompleted : kvLookup
      (setCompleted (setDownloading s n₁ i 0 md₁) n₂ i f md₂).completed
      (toString i) = some ⟨f, some n₂, md₂.getD []⟩ := by
    simp [setCompleted, kvLookup_kvInsert_self]
  refine ⟨hActive, hCompleted, ?_⟩
  simp [getDownloadState, hActive, hCompleted]

/-- C5: whenever the selector order splits as `L₁ ++ e :: L₂` with every
endpoint of `L₁` failing to yield 200 and `e` yielding 200 with body `b`,
`_make_request` returns `b`, requests exactly `L₁ ++ [e]` (nothing after
`e`), records success for `e`, and the success history afterwards maps the
operation key to `e`'s name and url at the current time. -/
theorem C5_executor_returns_first_200 {β : Type} (c : ClientState)
    (resp : Endpoint → HttpResult β) (path : String) (op : Option String)
    (now : Nat) (L₁ : List Endpoint) (e : Endpoint) (L₂ : List Endpoint)
    (b : β)
    (hsort : sortEndpointsByPriority c op = L₁ ++ e :: L₂)
    (hfail : ∀ x ∈ L₁, is200 (resp x) = false)
    (hok : resp e = .response 200 b) :
    makeRequest c resp op = ⟨some b, L₁ ++ [e], some e⟩ ∧
    kvLookup (makeRequestHistory c resp path op now) (opKey op path)
      = some ⟨e.name, e.url, now⟩ := by
  have hreq : makeRequest c resp op = ⟨some b, L₁ ++ [e], some e⟩ := by
    rw [makeRequest, hsort]
    exact requestLoop_first_hit resp L₁ e L₂ b hfail hok
  refine ⟨hreq, ?_⟩
  simp only [makeRequestHistory, hreq]
  simp [recordSuccess, kvLookup_kvInsert_self]

/-- C5 witness: four mocked endpoints answering 500, connection error,
200 (body 42), 200 (unreached); the executor returns 42, requests only the
first three, and records the third endpoint for the operation key. -/
theorem C5_executor_returns_first_200_witness :
    makeRequest execClient execResp none
      = ⟨some 42, [exFail500, exFailConn, exOk], some exOk⟩ ∧
    kvLookup (makeRequestHistory execClient execResp "/search/" none 7)
      "/search/" = some ⟨"cok", "https://c.example", 7⟩ :=
  C5_executor_returns_first_200 execClient execResp "/search/" none 7
    [exFail500, exFailConn] exOk [exUnreached] 42
    (by decide) (by decide) (by decide)

/-- C6: when every endpoint in selector order yields one of the listed
failures (HTTP 429, 500, 404 or a transport error), `_make_request` returns
`None`, records no success, and has requested every endpoint exactly once,
in order. -/
theorem C6_exhaustion_returns_none {β : Type} (c : ClientState)
    (resp : Endpoint → HttpResult β) (op : Option String)
    (hfail : ∀ x ∈ sortEndpointsByPriority c op, isListedFailure (resp x)) :
    makeRequest c resp op = ⟨none, sortEndpointsByPriority c op, none⟩ := by
  rw [makeRequest]
  apply requestLoop_all_fail
  intro x hx
  have hlisted := hfail x hx
  cases hr : resp x with
  | transportError => simp [is200]
  | response s b =>
    rw [hr] at hlisted
    simp only [isListedFailure] at hlisted
    simp only [is200, beq_eq_false_iff_ne, ne_eq]
    rcases hlisted with h | h | h <;> omega

/-- C6 witness: endpoints answering 429, 500, 404 and a timeout; the
executor returns `None` and attempted all four endpoints once each. -/
theorem C6_exhaustion_returns_none_witness :
    makeRequest execClient execRespAllFail none
      = ⟨none, [exFail500, exFailConn, exOk, exUnreached], none⟩ :=
  C6_exhaustion_returns_none execClient execRespAllFail none (by decide)

/-- C10: `_make_request` yields a body only from a 200 — whenever it returns
`some b`, some endpoint in selector order answered 200 with body `b` — and
every response with any other status (403, 502, 503, ...) makes the loop
request that endpoint and move on to the rest, contributing no result. -/
theorem C10_only_200_produces_result {β : Type} (c : ClientState)
    (resp : Endpoint → HttpResult β) (op : Option String) :
    (∀ b : β, (makeRequest c resp op).result = some b →
      ∃ e ∈ sortEndpointsByPriority c op, resp e = .response 200 b) ∧
    (∀ (e : Endpoint) (rest : List Endpoint) (s : Nat) (body : β),
      s ≠ 200 → resp e = .response s body →
      requestLoop resp (e :: rest) = skipTo e (requestLoop resp rest)) := by
  constructor
  · intro b hb
    rw [makeRequest] at hb
    exact requestLoop_result_some resp _ b hb
  · intro e rest s body hs hr
    apply requestLoop_skip
    rw [hr]
    simp [is200, hs]

/-- C10 witness: a 403 answer skips to the next endpoint, and the concrete
42 returned by the mixed scenario indeed came from a 200. -/
theorem C10_only_200_produces_result_witness :
    requestLoop execResp403 [exFail500, exOk]
      = skipTo exFail500 (requestLoop execResp403 [exOk]) ∧
    (∃ e ∈ sortEndpointsByPriority execClient none,
      execResp e = .response 200 42) :=
  ⟨(C10_only_200_produces_result execClient execResp403 none).2
      exFail500 [exOk] 403 0 (by decide) rfl,
   (C10_only_200_produces_result execClient execResp none).1 42 (by decide)⟩

/-- C7 counterexample: a configuration file that parses to a dict whose
`endpoints` key holds an ill-shaped value (e.g. `{"endpoints": 42}`) is
malformed input, yet `_load_endpoints` returns that value verbatim — neither
a configured endpoint list nor the built-in default list — refuting the
claimed fallback on every malformed input. -/
theorem C7_counterexample_ill_shaped_value :
    loadEndpoints (.parsedDict (some (.illShaped 0))) = .garbage 0 ∧
    loadEndpoints (.parsedDict (some (.illShaped 0)))
      ≠ .endpoints defaultEndpoints := by
  refine ⟨by decide, by decide⟩

/-- C7 amended: `_load_endpoints` returns the configured list when the file
parses to a dict whose `endpoints` key holds a well-formed list, and falls
back to the built-in default list when the file is absent, unreadable or
invalid JSON, parses to a non-dict, or lacks the `endpoints` key — but a
dict whose `endpoints` key holds an ill-shaped value is returned verbatim
(`data.get` defaults only on a missing key), not replaced by the defaults.
The default list has 12 mirrors with pairwise-distinct names, every priority
is 1 or 2, and both tiers occur. -/
theorem C7_fallback_except_ill_shaped_value :
    (∀ eps : List Endpoint,
      loadEndpoints (.parsedDict (some (.wellFormed eps))) = .endpoints eps) ∧
    loadEndpoints .missing = .endpoints defaultEndpoints ∧
    loadEndpoints .unreadable = .endpoints defaultEndpoints ∧
    loadEndpoints .parsedNonDict = .endpoints defaultEndpoints ∧
    loadEndpoints (.parsedDict none) = .endpoints defaultEndpoints ∧
    (∀ t : Nat, loadEndpoints (.parsedDict (some (.illShaped t))) = .garbage t) ∧
    defaultEndpoints.length = 12 ∧
    (defaultEndpoints.map Endpoint.name).Nodup ∧
    (∀ e ∈ defaultEndpoints, e.priority = some 1 ∨ e.priority = some 2) ∧
    (∃ e ∈ defaultEndpoints, e.priority = some 1) ∧
    (∃ e ∈ defaultEndpoints, e.priority = some 2) := by
  refine ⟨fun eps => rfl, rfl, rfl, rfl, rfl, fun t => rfl, rfl,
    by decide, by decide, by decide, by decide⟩

/-- C8: `set_download_status(i, s)` followed immediately by
`get_download_status(i)` yields `s` (age 0 is below the 300s TTL), for every
cache, item and status document; and whenever the stored entry for `i` is
older than 300s, `get_download_status(i)` yields `None`. -/
theorem C8_cache_put_get_ttl {σ : Type} :
    (∀ (cache : List (Nat × CacheEntry σ)) (now id : Nat) (st : σ),
      getDownloadStatus (setDownloadStatus cache now id st) now id
        = some st) ∧
    (∀ (cache : List (Nat × CacheEntry σ)) (now id : Nat) (e : CacheEntry σ),
      kvLookup cache id = some e → now - e.timestamp > 300 →
      getDownloadStatus cache now id = none) := by
  constructor
  · intro cache now id st
    simp [getDownloadStatus, setDownloadStatus, kvLookup_kvInsert_self]
  · intro cache now id e he hage
    simp only [getDownloadStatus, he]
    rw [if_neg (by omega)]

/-- C8 witness: a fresh put is read back, and an entry recorded at time 0 is
absent when read at time 1000. -/
theorem C8_cache_put_get_ttl_witness :
    getDownloadStatus
        (setDownloadStatus ([] : List (Nat × CacheEntry Nat)) 100 1 5) 100 1
      = some 5 ∧
    getDownloadStatus [(1, (⟨5, 0⟩ : CacheEntry Nat))] 1000 1 = none :=
  ⟨(@C8_cache_put_get_ttl Nat).1 [] 100 1 5,
   (@C8_cache_put_get_ttl Nat).2 [(1, ⟨5, 0⟩)] 1000 1 ⟨5, 0⟩
      (by decide) (by decide)⟩
